import Mathlib

/-!
# Text2Table: the convert handler and the query history

A shallow embedding of

* `src/backend/src/index.js`: the `POST /api/convert` handler, and
* `src/frontend/src/components/Converter.tsx`: the history state of the
  `Converter` component (rehydrate and persist effects, history updater,
  submit and replay handlers),

followed by theorems about them.

Conventions of the embedding.

* JavaScript values that reach the code through `JSON.parse` (the request body,
  the persisted history) are values of `JsVal`.  JSON numbers are modelled as
  integers; `undefined` stands for an absent property.  A string is its
  sequence of Unicode code points.
* A JavaScript exception is the `error` case of `Except String`.
* The model client is a function from the prompt to the outcome of
  `generateContent(...)`, `result.response`, `response.text()`; every handler
  returns, next to its response, the list of prompts it passed to
  `generateContent`.
-/

namespace Text2Table

/-! ## JavaScript values -/

/-- A JavaScript value as produced by `JSON.parse`, plus `undefined`. -/
inductive JsVal where
  | undefined
  | null
  | bool (b : Bool)
  | num (n : Int)
  | str (s : String)
  | arr (elems : List JsVal)
  | obj (fields : List (String × JsVal))

namespace JsVal

/-- JavaScript truthiness (what `!v` negates): `undefined`, `null`, `false`,
`0` and the empty string are falsy, every other value is truthy. -/
def truthy : JsVal → Bool
  | undefined => false
  | null => false
  | bool b => b
  | num n => n != 0
  | str s => s != ""
  | arr _ => true
  | obj _ => true

mutual
/-- String conversion of a value inside a template literal.  An object parsed
from JSON has no callable `toString` of its own: it inherits
`Object.prototype.toString` unless an own `toString` key shadows it, in which
case the conversion throws a `TypeError`. -/
def toStr : JsVal → Except String String
  | undefined => .ok "undefined"
  | null => .ok "null"
  | bool b => .ok (if b then "true" else "false")
  | num n => .ok (toString n)
  | str s => .ok s
  | arr elems => joinElems elems
  | obj fields =>
    if fields.any (fun kv => kv.1 == "toString") then
      .error "TypeError: Cannot convert object to primitive value"
    else .ok "[object Object]"
/-- The array case, `Array.prototype.join` with the separator `,`: `null` and
`undefined` elements contribute the empty string. -/
def joinElems : List JsVal → Except String String
  | [] => .ok ""
  | [v] => elemStr v
  | v :: w :: rest => do
    let a ← elemStr v
    let b ← joinElems (w :: rest)
    pure (a ++ "," ++ b)
/-- One element of a joined array. -/
def elemStr : JsVal → Except String String
  | undefined => .ok ""
  | null => .ok ""
  | bool b => .ok (if b then "true" else "false")
  | num n => .ok (toString n)
  | str s => .ok s
  | arr elems => joinElems elems
  | obj fields =>
    if fields.any (fun kv => kv.1 == "toString") then
      .error "TypeError: Cannot convert object to primitive value"
    else .ok "[object Object]"
end

/-- The method call `v.toLowerCase()`.  Only strings have the method; on any
other truthy value the call throws a `TypeError`.  Letters are lowered in the
ASCII range only: no character outside it lower-cases to a letter of `sql` or
`mongodb`, so the handler cannot tell the difference. -/
def toLowerCase : JsVal → Except String String
  | str s => .ok (String.mk (s.data.map Char.toLower))
  | _ => .error "TypeError: format.toLowerCase is not a function"

end JsVal

/-- White space and line terminators removed by `String.prototype.trim`. -/
def isJsSpace (c : Char) : Bool :=
  c.val == 0x09 || c.val == 0x0A || c.val == 0x0B || c.val == 0x0C || c.val == 0x0D ||
  c.val == 0x20 || c.val == 0xA0 || c.val == 0x1680 ||
  (0x2000 ≤ c.val && c.val ≤ 0x200A) ||
  c.val == 0x2028 || c.val == 0x2029 || c.val == 0x202F || c.val == 0x205F ||
  c.val == 0x3000 || c.val == 0xFEFF

/-- The method `String.prototype.trim`. -/
def jsTrim (s : String) : String :=
  String.mk ((s.data.dropWhile isJsSpace).reverse.dropWhile isJsSpace).reverse

/-! ## The convert handler (`src/backend/src/index.js`) -/

/-- The destructured request body `{ text, format }`; an absent property is
`undefined`. -/
structure Request where
  text : JsVal
  format : JsVal

/-- An HTTP response: the status and the JSON object sent as body, as its list
of keys and string values. -/
structure Response where
  status : Nat
  body : List (String × String)
  deriving DecidableEq, Repr

/-- The initialised client: the outcome of the model call on a prompt, either
the completion text or the thrown error. -/
abbrev Gateway := String → Except String String

/-- What one run of the handler does: the response, and the prompts passed to
`generateContent`. -/
structure Outcome where
  response : Response
  calls : List String
  deriving DecidableEq, Repr

/-- The task template `prompt` (lines 45-47). -/
def prompt (formatType text : String) : String :=
  if formatType == "sql" then
    "Convert the following natural language query to SQL:\n" ++ text ++ "\n\nSQL query:"
  else
    "Convert the following natural language query to MongoDB query syntax:\n" ++ text ++
      "\n\nMongoDB query:"

/-- The system instruction `systemPrompt` (line 56). -/
def systemPrompt (formatType : String) : String :=
  "You are a helpful assistant that converts natural language to " ++
    (if formatType == "sql" then "SQL" else "MongoDB") ++
    " queries. Provide only the query without any explanation."

/-- The string `fullPrompt` passed to `generateContent` (line 57). -/
def fullPrompt (formatType text : String) : String :=
  systemPrompt formatType ++ "\n\n" ++ prompt formatType text

/-- The canned SQL query. -/
def sampleSql : String :=
  "SELECT * FROM users WHERE registration_date >= DATE_SUB(CURDATE(), INTERVAL 30 DAY)"

/-- The canned MongoDB query. -/
def sampleMongo : String :=
  "db.users.find(\x7b registration_date: \x7b $gte: new Date(new Date().setDate(new Date().getDate() - 30)) \x7d \x7d)"

/-- The object `sampleQueries` built in the fallback branch (lines 70-77). -/
def sampleQueries (formatType : String) : List (String × String) :=
  [("sql", if formatType == "sql" then sampleSql else sampleMongo),
   ("mongodb", if formatType == "mongodb" then sampleMongo else sampleSql)]

/-- The `note` of a fallback response (line 82). -/
def fallbackNote : String :=
  "API connection issue - showing sample query. In production, this would connect to Google\x27s AI API."

/-- Serialisation of an object literal by `res.json`: a key whose value is
`undefined` is left out. -/
def jsonBody (fields : List (String × Option String)) : List (String × String) :=
  fields.filterMap (fun kv => kv.2.map (fun v => (kv.1, v)))

/-- The body of the outer `try` of the handler (lines 29-84); `error` is an
exception that reaches the outer `catch`. -/
def convertTry (genAI : Option Gateway) (req : Request) : Except String Outcome :=
  if !req.text.truthy then
    .ok ⟨⟨400, [("error", "Text is required")]⟩, []⟩
  else if !req.format.truthy then
    .ok ⟨⟨400, [("error", "Valid format (sql or mongodb) is required")]⟩, []⟩
  else do
    let lowered ← req.format.toLowerCase
    if !(["sql", "mongodb"].contains lowered) then
      .ok ⟨⟨400, [("error", "Valid format (sql or mongodb) is required")]⟩, []⟩
    else
      match genAI with
      | none =>
        .ok ⟨⟨500, [("error", "Google Generative AI client not initialized")]⟩, []⟩
      | some model => do
        let formatType ← req.format.toLowerCase
        let text ← req.text.toStr
        let full := fullPrompt formatType text
        match model full with
        | .ok completion =>
          .ok ⟨⟨200, jsonBody [("query", some (jsTrim completion))]⟩, [full]⟩
        | .error _ =>
          .ok ⟨⟨200, jsonBody [("query", (sampleQueries formatType).lookup formatType),
                               ("note", some fallbackNote)]⟩, [full]⟩

/-- The handler of `POST /api/convert` (lines 27-91): the outer `catch` turns
any exception into the generic 500 response. -/
def convert (genAI : Option Gateway) (req : Request) : Outcome :=
  match convertTry genAI req with
  | .ok out => out
  | .error _ => ⟨⟨500, [("error", "Failed to convert text to query")]⟩, []⟩

/-! ## The history of the `Converter` component (`src/frontend/src/components/Converter.tsx`) -/

/-- The element type of `queryHistory` and the parameter type of
`handleHistoryItemClick` (lines 35 and 117). -/
structure HistoryEntry where
  text : String
  format : String
  result : String
  deriving DecidableEq, Repr

/-- The object literal built from an entry (line 80). -/
def HistoryEntry.toJs (e : HistoryEntry) : JsVal :=
  .obj [("text", .str e.text), ("format", .str e.format), ("result", .str e.result)]

/-- The state of the component (lines 28-35).  `queryHistory` is declared as an
array of entries, but the mount effect stores the result of `JSON.parse`,
which is of type `any`: the field holds a `JsVal`. -/
structure ViewState where
  inputText : String
  outputQuery : String
  format : String
  loading : Bool
  error : Option String
  copied : Bool
  showHints : Bool
  queryHistory : JsVal

/-- The state of the first render (the arguments of the `useState` calls). -/
def initialState : ViewState where
  inputText := ""
  outputQuery := ""
  format := "sql"
  loading := false
  error := none
  copied := false
  showHints := false
  queryHistory := .arr []

/-- A request sent to the server: the payload of `axios.post` (lines 70-73). -/
structure ConvertCall where
  text : String
  format : String
  deriving DecidableEq, Repr

/-- The mount effect (lines 42-51) on the history, given the stored item
`savedHistory` (`none` for `null`) and the function `JSON.parse`: an item that
is absent or the empty string is skipped, and an exception of `JSON.parse` is
caught and leaves the history as it is. -/
def rehydrate (parse : String → Except String JsVal) (savedHistory : Option String)
    (queryHistory : JsVal) : Except String JsVal :=
  match savedHistory with
  | none => pure queryHistory
  | some raw =>
    if raw != "" then
      tryCatch (parse raw) (fun _ => pure queryHistory)
    else pure queryHistory

/-- The updater passed to `setQueryHistory` in `handleSubmit` (lines 79-82):
the new entry, then `prev.slice(0, 9)` spread.  An array is cut to its first
nine elements, a string to its first nine characters, which the spread turns
into one-character strings; no other value has a `slice` method and the call
throws a `TypeError`. -/
def historyUpdater (entry : HistoryEntry) (prev : JsVal) : Except String JsVal :=
  match prev with
  | .arr elems => pure (.arr (entry.toJs :: elems.take 9))
  | .str s => pure (.arr (entry.toJs :: (s.data.take 9).map (fun c => .str (String.singleton c))))
  | _ => throw "TypeError: prev.slice is not a function"

/-- An operation on the history: the mount effect on a stored item, or the
append of an entry by a successful submit. -/
inductive HistoryOp where
  | rehydrate (savedHistory : Option String)
  | append (entry : HistoryEntry)

/-- One operation on the history. -/
def HistoryOp.apply (parse : String → Except String JsVal) (queryHistory : JsVal) :
    HistoryOp → Except String JsVal
  | .rehydrate savedHistory => Text2Table.rehydrate parse savedHistory queryHistory
  | .append entry => historyUpdater entry queryHistory

/-- A sequence of operations on the history, from left to right. -/
def runOps (parse : String → Except String JsVal) (ops : List HistoryOp)
    (queryHistory : JsVal) : Except String JsVal :=
  ops.foldlM (fun h op => op.apply parse h) queryHistory

/-- The click handler of a history item (lines 117-121): the new state, and the
requests it sends to the server, of which there are none. -/
def handleHistoryItemClick (s : ViewState) (item : HistoryEntry) :
    ViewState × List ConvertCall :=
  ({ s with inputText := item.text, format := item.format, outputQuery := item.result }, [])

/-- The persist effect (lines 54-58), run after a render in which
`queryHistory` changed: the writes to `localStorage` as key and value.  An
array or a string has a numeric `length`; on `null` and `undefined` the property
access throws; a number or a boolean has no `length`, and `undefined > 0` is
false; an object has the `length` its own key gives it.  `JSON.stringify` and
the comparison `> 0` on a value that is not known to be a number are functions
of the platform and are parameters. -/
def persistEffect (stringify : JsVal → String) (gtZero : JsVal → Bool)
    (queryHistory : JsVal) : Except String (List (String × String)) :=
  match queryHistory with
  | .undefined => throw "TypeError: Cannot read properties of undefined (reading length)"
  | .null => throw "TypeError: Cannot read properties of null (reading length)"
  | .arr elems =>
    if elems.length > 0 then pure [("queryHistory", stringify queryHistory)] else pure []
  | .str text =>
    if text.length > 0 then pure [("queryHistory", stringify queryHistory)] else pure []
  | .obj fields =>
    match fields.lookup "length" with
    | some len => if gtZero len then pure [("queryHistory", stringify queryHistory)] else pure []
    | none => pure []
  | .num _ => pure []
  | .bool _ => pure []

/-- What `await axios.post(...)` yields.  The promise resolves on a status from
200 to 299, with the body `query`, and `note` on a fallback, that the server
sends (index.js lines 64 and 80-83).  It rejects with `err.response` on any
other status, where `error` is the `error` string of the body if it has one;
with `err.request` only when no response arrived; with neither when the request
could not be set up. -/
inductive AxiosOutcome where
  | success (query : String) (note : Option String)
  | failure (status : Nat) (error : Option String)
  | noResponse
  | notSent

/-- The message chosen by the `catch` of `handleSubmit` (lines 87-99); the
first three cases are those of a rejection with `err.response`. -/
def errorMessage : AxiosOutcome → Option String
  | .success _ _ => none
  | .failure status error =>
    if status == 401 then
      some "API authentication error. Please check the API key configuration."
    else
      match error with
      | some message =>
        if message != "" then some message else some ("Server error: " ++ toString status)
      | none => some ("Server error: " ++ toString status)
  | .noResponse => some "No response from server. Please check if the API server is running."
  | .notSent => some "Failed to convert text. Please try again."

/-- The submit handler (lines 60-103), given the answer of the server to the
request: the state after the handler has finished, and the requests sent.  A
blank input returns at once.  An exception of the history updater is not
caught by the handler: React runs the updater while rendering, and the `error`
case stands for the failed render. -/
def handleSubmit (server : ConvertCall → AxiosOutcome) (s : ViewState) :
    Except String (ViewState × List ConvertCall) :=
  if jsTrim s.inputText == "" then pure (s, [])
  else
    let started := { s with loading := true, error := none, outputQuery := "", copied := false }
    let call : ConvertCall := ⟨s.inputText, s.format⟩
    match server call with
    | .success query _ => do
      let history ← historyUpdater ⟨s.inputText, s.format, query⟩ started.queryHistory
      pure ({ started with outputQuery := query, queryHistory := history, loading := false },
        [call])
    | outcome =>
      pure ({ started with error := errorMessage outcome, loading := false }, [call])

/-! ## Theorems: the convert handler -/

theorem truthy_str_of_ne {t : String} (h : t ≠ "") : (JsVal.str t).truthy = true := by
  simp [JsVal.truthy, h]

theorem ne_empty_of_lower {f d : String} (h : (JsVal.str f).toLowerCase = .ok d)
    (hd : d = "sql" ∨ d = "mongodb") : f ≠ "" := by
  rintro rfl
  rcases hd with rfl | rfl <;> simp [JsVal.toLowerCase] at h

/-- A request with a non-empty text and a format that lower-cases to one of the
two dialects reaches the model call; the response is decided by its outcome. -/
theorem convert_valid (g : Gateway) (t f d : String) (ht : t ≠ "")
    (hf : (JsVal.str f).toLowerCase = .ok d) (hd : d = "sql" ∨ d = "mongodb") :
    convert (some g) ⟨.str t, .str f⟩ =
      match g (fullPrompt d t) with
      | .ok completion => ⟨⟨200, [("query", jsTrim completion)]⟩, [fullPrompt d t]⟩
      | .error _ =>
        ⟨⟨200, [("query", if d = "sql" then sampleSql else sampleMongo), ("note", fallbackNote)]⟩,
          [fullPrompt d t]⟩ := by
  have hf0 := ne_empty_of_lower hf hd
  simp only [JsVal.toLowerCase, Except.ok.injEq] at hf
  simp only [convert, convertTry, truthy_str_of_ne ht, truthy_str_of_ne hf0, JsVal.toLowerCase,
    JsVal.toStr, hf]
  rcases hd with rfl | rfl <;> cases hg : g (fullPrompt _ t) <;>
    simp [hg, jsonBody, sampleQueries, List.lookup, bind, Except.bind, pure, Except.pure]

/-- C1 (as stated, refuted): the whitespace-only text of three blanks with the
format `sql` and an initialised client is not rejected: the model is called
with a prompt embedding the blanks and the response is 200 with the model's
query. -/
theorem c1_whitespace_text_reaches_model :
    "   ".data.all isJsSpace = true ∧
    convert (some (fun _ => .ok "SELECT 1")) ⟨.str "   ", .str "sql"⟩ =
      ⟨⟨200, [("query", "SELECT 1")]⟩,
        ["You are a helpful assistant that converts natural language to SQL queries. Provide only the query without any explanation.\n\nConvert the following natural language query to SQL:\n   \n\nSQL query:"]⟩ :=
  ⟨by decide, by rfl⟩

/-- C1 (amended): a request whose text is missing or the empty string is
answered with status 400 and the body `error: Text is required`, and no prompt
is passed to `generateContent`, whatever the format and the client. -/
theorem c1_missing_or_empty_text_rejected (genAI : Option Gateway) (req : Request)
    (h : req.text = .undefined ∨ req.text = .str "") :
    convert genAI req = ⟨⟨400, [("error", "Text is required")]⟩, []⟩ := by
  rcases h with h | h <;> simp [convert, convertTry, h, JsVal.truthy]

theorem c1_missing_or_empty_text_rejected_witness :
    convert (some (fun _ => .ok "SELECT 1")) ⟨.str "", .str "sql"⟩ =
      ⟨⟨400, [("error", "Text is required")]⟩, []⟩ :=
  c1_missing_or_empty_text_rejected (some (fun _ => .ok "SELECT 1")) ⟨.str "", .str "sql"⟩
    (Or.inr rfl)

/-- C2 (the code at the failing inputs): when the text is truthy and the format
is a truthy value that is not a string (a non-zero number, `true`, an array or
an object), `format.toLowerCase()` throws and the outer `catch` answers with
status 500 and the generic error, not with the 400 of the format check. -/
theorem c2_non_string_format_gives_500 (genAI : Option Gateway) (req : Request)
    (ht : req.text.truthy = true) (hf : req.format.truthy = true)
    (hs : ∀ s, req.format ≠ .str s) :
    convert genAI req = ⟨⟨500, [("error", "Failed to convert text to query")]⟩, []⟩ := by
  obtain ⟨text, format⟩ := req
  cases format <;> simp_all [convert, convertTry, JsVal.toLowerCase, JsVal.truthy, bind,
    Except.bind]

theorem c2_non_string_format_gives_500_witness :
    convert (some (fun _ => .ok "SELECT 1")) ⟨.str "x", .num 5⟩ =
      ⟨⟨500, [("error", "Failed to convert text to query")]⟩, []⟩ :=
  c2_non_string_format_gives_500 (some (fun _ => .ok "SELECT 1")) ⟨.str "x", .num 5⟩
    (by decide) (by decide) (by intro s h; cases h)

/-- C3: for a request with a non-empty text and a format that is `sql` or
`mongodb` in any letter case, with an initialised client whose model call
returns the completion `c`, the response is status 200 with the body
`query: trim(c)` and nothing else; in particular it has no `note`. -/
theorem c3_model_success_returns_trimmed_completion (g : Gateway) (t f d c : String)
    (ht : t ≠ "") (hf : (JsVal.str f).toLowerCase = .ok d) (hd : d = "sql" ∨ d = "mongodb")
    (hg : g (fullPrompt d t) = .ok c) :
    (convert (some g) ⟨.str t, .str f⟩).response = ⟨200, [("query", jsTrim c)]⟩ ∧
    (convert (some g) ⟨.str t, .str f⟩).response.body.lookup "note" = none := by
  rw [convert_valid g t f d ht hf hd, hg]
  exact ⟨rfl, rfl⟩

theorem c3_model_success_returns_trimmed_completion_witness :
    (convert (some (fun _ => .ok "SELECT * FROM users WHERE ..."))
        ⟨.str "Show all users who registered in the last 30 days", .str "sql"⟩).response =
      ⟨200, [("query", jsTrim "SELECT * FROM users WHERE ...")]⟩ ∧
    (convert (some (fun _ => .ok "SELECT * FROM users WHERE ..."))
        ⟨.str "Show all users who registered in the last 30 days", .str "sql"⟩).response.body.lookup
      "note" = none :=
  c3_model_success_returns_trimmed_completion (fun _ => .ok "SELECT * FROM users WHERE ...")
    "Show all users who registered in the last 30 days" "sql" "sql"
    "SELECT * FROM users WHERE ..." (by decide) (by rfl) (Or.inl rfl) rfl

/-- C4: for a request with a non-empty text and a format that is `sql` or
`mongodb` in any letter case, with an initialised client whose model call
fails, the response is status 200 with a `note` and with `query` the canned
entry of the normalised dialect: the SQL string for `sql`, the `db.users.find`
string for `mongodb`. -/
theorem c4_model_failure_returns_canned_query (g : Gateway) (t f d msg : String)
    (ht : t ≠ "") (hf : (JsVal.str f).toLowerCase = .ok d) (hd : d = "sql" ∨ d = "mongodb")
    (hg : g (fullPrompt d t) = .error msg) :
    (convert (some g) ⟨.str t, .str f⟩).response =
      ⟨200, [("query",
              if d = "sql" then
                "SELECT * FROM users WHERE registration_date >= DATE_SUB(CURDATE(), INTERVAL 30 DAY)"
              else
                "db.users.find(\x7b registration_date: \x7b $gte: new Date(new Date().setDate(new Date().getDate() - 30)) \x7d \x7d)"),
             ("note", fallbackNote)]⟩ := by
  rw [convert_valid g t f d ht hf hd, hg]
  rfl

theorem c4_model_failure_returns_canned_query_witness :
    (convert (some (fun _ => .error "fetch failed")) ⟨.str "x", .str "SQL"⟩).response =
      ⟨200, [("query",
              if "sql" = "sql" then
                "SELECT * FROM users WHERE registration_date >= DATE_SUB(CURDATE(), INTERVAL 30 DAY)"
              else
                "db.users.find(\x7b registration_date: \x7b $gte: new Date(new Date().setDate(new Date().getDate() - 30)) \x7d \x7d)"),
             ("note", fallbackNote)]⟩ :=
  c4_model_failure_returns_canned_query (fun _ => .error "fetch failed") "x" "SQL" "sql"
    "fetch failed" (by decide) (by rfl) (Or.inl rfl) rfl

/-- C5: for a request with a non-empty text and a format that is `sql` or
`mongodb` in any letter case, when the client was not constructed the response
is status 500 with the body `error: Google Generative AI client not
initialized`, and no prompt is passed to `generateContent`. -/
theorem c5_uninitialised_client_gives_500 (t f d : String)
    (ht : t ≠ "") (hf : (JsVal.str f).toLowerCase = .ok d) (hd : d = "sql" ∨ d = "mongodb") :
    convert none ⟨.str t, .str f⟩ =
      ⟨⟨500, [("error", "Google Generative AI client not initialized")]⟩, []⟩ := by
  have hf0 := ne_empty_of_lower hf hd
  simp only [JsVal.toLowerCase, Except.ok.injEq] at hf
  simp only [convert, convertTry, truthy_str_of_ne ht, truthy_str_of_ne hf0, JsVal.toLowerCase,
    hf]
  rcases hd with rfl | rfl <;> simp [bind, Except.bind]

theorem c5_uninitialised_client_gives_500_witness :
    convert none ⟨.str "x", .str "MongoDB"⟩ =
      ⟨⟨500, [("error", "Google Generative AI client not initialized")]⟩, []⟩ :=
  c5_uninitialised_client_gives_500 "x" "MongoDB" "mongodb" (by decide) (by rfl) (Or.inr rfl)

/-- The text occurs in the prompt as a contiguous run of characters. -/
theorem text_infix_fullPrompt (d t : String) : t.data <:+: (fullPrompt d t).data := by
  unfold fullPrompt prompt
  split
  · exact ⟨(systemPrompt d ++ "\n\n" ++
      "Convert the following natural language query to SQL:\n").data, "\n\nSQL query:".data,
      by simp [String.data_append]⟩
  · exact ⟨(systemPrompt d ++ "\n\n" ++
      "Convert the following natural language query to MongoDB query syntax:\n").data,
      "\n\nMongoDB query:".data, by simp [String.data_append]⟩

/-- C10: for a non-empty text `t` and a format normalising to the dialect `d`,
exactly one prompt is passed to `generateContent`, whatever the client answers;
it is the system instruction for `d`, two newlines, and the task template for
`d` around `t`, and `t` occurs in it unchanged as a contiguous substring. -/
theorem c10_prompt_is_instruction_then_template (g : Gateway) (t f d : String)
    (ht : t ≠ "") (hf : (JsVal.str f).toLowerCase = .ok d) (hd : d = "sql" ∨ d = "mongodb") :
    (convert (some g) ⟨.str t, .str f⟩).calls = [fullPrompt d t] ∧
    fullPrompt d t =
      (if d = "sql" then
        "You are a helpful assistant that converts natural language to SQL queries. Provide only the query without any explanation."
      else
        "You are a helpful assistant that converts natural language to MongoDB queries. Provide only the query without any explanation.")
      ++ "\n\n" ++
      (if d = "sql" then
        "Convert the following natural language query to SQL:\n" ++ t ++ "\n\nSQL query:"
      else
        "Convert the following natural language query to MongoDB query syntax:\n" ++ t ++
          "\n\nMongoDB query:") ∧
    t.data <:+: (fullPrompt d t).data := by
  refine ⟨?_, ?_, text_infix_fullPrompt d t⟩
  · rw [convert_valid g t f d ht hf hd]
    cases g (fullPrompt d t) <;> rfl
  · rcases hd with rfl | rfl <;> rfl

theorem c10_prompt_is_instruction_then_template_witness :
    (convert (some (fun _ => .error "fetch failed")) ⟨.str " a\nb ", .str "MongoDB"⟩).calls =
      [fullPrompt "mongodb" " a\nb "] ∧
    fullPrompt "mongodb" " a\nb " =
      (if "mongodb" = "sql" then
        "You are a helpful assistant that converts natural language to SQL queries. Provide only the query without any explanation."
      else
        "You are a helpful assistant that converts natural language to MongoDB queries. Provide only the query without any explanation.")
      ++ "\n\n" ++
      (if "mongodb" = "sql" then
        "Convert the following natural language query to SQL:\n" ++ " a\nb " ++ "\n\nSQL query:"
      else
        "Convert the following natural language query to MongoDB query syntax:\n" ++ " a\nb " ++
          "\n\nMongoDB query:") ∧
    " a\nb ".data <:+: (fullPrompt "mongodb" " a\nb ").data :=
  c10_prompt_is_instruction_then_template (fun _ => .error "fetch failed") " a\nb " "MongoDB"
    "mongodb" (by decide) (by rfl) (Or.inr rfl)

/-! ## Theorems: the history -/

/-- C6: on a history that is the array `L`, the updater yields the new entry
followed by the first nine elements of `L` in their order, also when the entry
already occurs in `L`; appending eleven entries in sequence to the empty
history leaves the last ten, most recent first. -/
theorem c6_append_is_entry_then_first_nine (L : List JsVal) (e : HistoryEntry)
    (e1 e2 e3 e4 e5 e6 e7 e8 e9 e10 e11 : HistoryEntry) :
    historyUpdater e (.arr L) = .ok (.arr (e.toJs :: L.take 9)) ∧
    historyUpdater e (.arr (e.toJs :: L)) = .ok (.arr (e.toJs :: e.toJs :: L.take 8)) ∧
    [e1, e2, e3, e4, e5, e6, e7, e8, e9, e10, e11].foldlM (fun h x => historyUpdater x h)
        (.arr []) =
      .ok (.arr [e11.toJs, e10.toJs, e9.toJs, e8.toJs, e7.toJs, e6.toJs, e5.toJs, e4.toJs,
        e3.toJs, e2.toJs]) :=
  ⟨rfl, rfl, rfl⟩

/-- C7 (as stated, refuted): when the stored item parses to an array of eleven
entries, the mount effect on the initial state leaves a history of eleven
entries. -/
theorem c7_rehydrate_installs_eleven_entries :
    runOps (fun _ => .ok (.arr (List.replicate 11 (HistoryEntry.toJs ⟨"a", "sql", "b"⟩))))
        [.rehydrate (some "stored")] initialState.queryHistory =
      .ok (.arr (List.replicate 11 (HistoryEntry.toJs ⟨"a", "sql", "b"⟩))) ∧
    (List.replicate 11 (HistoryEntry.toJs ⟨"a", "sql", "b"⟩)).length = 11 :=
  ⟨rfl, rfl⟩

/-- One operation keeps an array of at most ten elements an array of at most
ten elements, when the stored item, if it parses, is such an array. -/
theorem apply_keeps_bound (parse : String → Except String JsVal) (op : HistoryOp)
    (l : List JsVal) (hl : l.length ≤ 10)
    (hp : ∀ raw, op = .rehydrate (some raw) → ∀ v, parse raw = .ok v →
      ∃ l', v = .arr l' ∧ l'.length ≤ 10) :
    ∃ l', op.apply parse (.arr l) = .ok (.arr l') ∧ l'.length ≤ 10 := by
  cases op with
  | append entry =>
    refine ⟨entry.toJs :: l.take 9, rfl, ?_⟩
    simp only [List.length_cons, List.length_take]
    omega
  | rehydrate savedHistory =>
    cases savedHistory with
    | none => exact ⟨l, rfl, hl⟩
    | some raw =>
      by_cases hraw : raw = ""
      · exact ⟨l, by simp [HistoryOp.apply, rehydrate, hraw, pure, Except.pure], hl⟩
      · cases hparse : parse raw with
        | error msg =>
          exact ⟨l, by simp [HistoryOp.apply, rehydrate, hraw, hparse, tryCatch, tryCatchThe,
            MonadExceptOf.tryCatch, Except.tryCatch, pure, Except.pure], hl⟩
        | ok v =>
          obtain ⟨l', rfl, hl'⟩ := hp raw rfl v hparse
          exact ⟨l', by simp [HistoryOp.apply, rehydrate, hraw, hparse, tryCatch, tryCatchThe,
            MonadExceptOf.tryCatch, Except.tryCatch], hl'⟩

/-- A run of operations from an array of at most ten elements. -/
theorem runOps_keeps_bound (parse : String → Except String JsVal) (ops : List HistoryOp) :
    ∀ (l : List JsVal), l.length ≤ 10 →
    (∀ raw, HistoryOp.rehydrate (some raw) ∈ ops → ∀ v, parse raw = .ok v →
      ∃ l', v = .arr l' ∧ l'.length ≤ 10) →
    ∃ l', runOps parse ops (.arr l) = .ok (.arr l') ∧ l'.length ≤ 10 := by
  induction ops with
  | nil => intro l hl _; exact ⟨l, rfl, hl⟩
  | cons op ops ih =>
    intro l hl hp
    obtain ⟨l1, h1, hl1⟩ := apply_keeps_bound parse op l hl
      (fun raw hop => hp raw (by simp [hop]))
    obtain ⟨l2, h2, hl2⟩ := ih l1 hl1 (fun raw hmem => hp raw (List.mem_cons_of_mem _ hmem))
    refine ⟨l2, ?_, hl2⟩
    simp only [runOps, List.foldlM_cons, h1, bind, Except.bind] at h2 ⊢
    exact h2

/-- C7 (amended): starting from the initial state, after any sequence of mount
effects and appends in which every stored item that parses is an array of at
most ten elements, the history is an array of at most ten elements. -/
theorem c7_history_bounded_by_ten (parse : String → Except String JsVal) (ops : List HistoryOp)
    (hp : ∀ raw, HistoryOp.rehydrate (some raw) ∈ ops → ∀ v, parse raw = .ok v →
      ∃ l, v = .arr l ∧ l.length ≤ 10) :
    ∃ l, runOps parse ops initialState.queryHistory = .ok (.arr l) ∧ l.length ≤ 10 :=
  runOps_keeps_bound parse ops [] (by simp) hp

theorem c7_history_bounded_by_ten_witness :
    ∃ l, runOps (fun raw => if raw = "[]" then .ok (.arr []) else .error "SyntaxError")
        [.rehydrate (some "[]"), .append ⟨"a", "sql", "b"⟩, .rehydrate none,
          .append ⟨"c", "mongodb", "d"⟩, .rehydrate (some "not json")]
        initialState.queryHistory = .ok (.arr l) ∧ l.length ≤ 10 :=
  c7_history_bounded_by_ten (fun raw => if raw = "[]" then .ok (.arr []) else .error "SyntaxError")
    [.rehydrate (some "[]"), .append ⟨"a", "sql", "b"⟩, .rehydrate none,
      .append ⟨"c", "mongodb", "d"⟩, .rehydrate (some "not json")]
    (by
      intro raw hmem v hv
      simp only [List.mem_cons, HistoryOp.rehydrate.injEq, Option.some.injEq, reduceCtorEq,
        List.mem_singleton, false_or, List.not_mem_nil, or_false] at hmem
      rcases hmem with rfl | rfl
      · simp only [↓reduceIte, Except.ok.injEq] at hv
        exact ⟨[], hv.symm, by simp⟩
      · simp at hv)

/-- C8 (as stated, refuted): when the stored item is the text `5`, which
`JSON.parse` turns into the number 5, the mount effect on the initial state
makes the number the history; it is not the empty list. -/
theorem c8_rehydrate_installs_parsed_number :
    rehydrate (fun raw => if raw = "5" then .ok (.num 5) else .error "SyntaxError") (some "5")
        initialState.queryHistory = .ok (.num 5) ∧
    JsVal.num 5 ≠ .arr [] :=
  ⟨rfl, by intro h; cases h⟩

/-- C8 (amended): when the stored item is absent, the empty string, or a text
on which `JSON.parse` throws, the mount effect returns without an exception and
leaves the history as it was, which at startup is the empty list. -/
theorem c8_rehydrate_absent_or_unparseable (parse : String → Except String JsVal)
    (savedHistory : Option String) (queryHistory : JsVal)
    (h : savedHistory = none ∨ savedHistory = some "" ∨
      ∃ raw msg, savedHistory = some raw ∧ parse raw = .error msg) :
    rehydrate parse savedHistory queryHistory = .ok queryHistory ∧
    rehydrate parse savedHistory initialState.queryHistory = .ok (.arr []) := by
  rcases h with rfl | rfl | ⟨raw, msg, rfl, hparse⟩
  · exact ⟨rfl, rfl⟩
  · exact ⟨rfl, rfl⟩
  · by_cases hraw : raw = "" <;>
      simp [rehydrate, hraw, hparse, tryCatch, tryCatchThe, MonadExceptOf.tryCatch,
        Except.tryCatch, pure, Except.pure, initialState]

theorem c8_rehydrate_absent_or_unparseable_witness :
    rehydrate (fun raw => if raw = "5" then .ok (.num 5) else .error "SyntaxError")
        (some "\x7bnot json") (.arr [HistoryEntry.toJs ⟨"a", "sql", "b"⟩]) =
      .ok (.arr [HistoryEntry.toJs ⟨"a", "sql", "b"⟩]) ∧
    rehydrate (fun raw => if raw = "5" then .ok (.num 5) else .error "SyntaxError")
        (some "\x7bnot json") initialState.queryHistory = .ok (.arr []) :=
  c8_rehydrate_absent_or_unparseable
    (fun raw => if raw = "5" then .ok (.num 5) else .error "SyntaxError") (some "\x7bnot json")
    (.arr [HistoryEntry.toJs ⟨"a", "sql", "b"⟩])
    (Or.inr (Or.inr ⟨"\x7bnot json", "SyntaxError", rfl, rfl⟩))

/-- C9: the click on a history item sets `inputText`, `format` and
`outputQuery` to the text, format and result of the item, leaves
`queryHistory`, `loading`, `error`, `copied` and `showHints` as they were, and
sends no request to the server. -/
theorem c9_replay_restores_entry_and_sends_nothing (s : ViewState) (e : HistoryEntry) :
    (handleHistoryItemClick s e).1.inputText = e.text ∧
    (handleHistoryItemClick s e).1.format = e.format ∧
    (handleHistoryItemClick s e).1.outputQuery = e.result ∧
    (handleHistoryItemClick s e).1.queryHistory = s.queryHistory ∧
    (handleHistoryItemClick s e).1.loading = s.loading ∧
    (handleHistoryItemClick s e).1.error = s.error ∧
    (handleHistoryItemClick s e).1.copied = s.copied ∧
    (handleHistoryItemClick s e).1.showHints = s.showHints ∧
    (handleHistoryItemClick s e).2 = [] :=
  ⟨rfl, rfl, rfl, rfl, rfl, rfl, rfl, rfl, rfl⟩

/-! ## Theorems: empty completions, the fallback and the order of the checks -/

/-- A text of white space only trims to the empty string. -/
theorem jsTrim_eq_empty_of_all_space (c : String) (h : c.data.all isJsSpace = true) :
    jsTrim c = "" := by
  have h0 : c.data.dropWhile isJsSpace = [] := by
    rw [List.dropWhile_eq_nil_iff]
    simpa [List.all_eq_true] using h
  simp [jsTrim, h0]

/-- C11 (as stated, refuted): when the model call returns the completion of two
blanks and a newline, the response is status 200 with the body `query: ""`,
without a `note` and without the canned query. -/
theorem c11_blank_completion_returned_as_query :
    "  \n".data.all isJsSpace = true ∧
    (convert (some (fun _ => .ok "  \n")) ⟨.str "x", .str "sql"⟩).response =
      ⟨200, [("query", "")]⟩ :=
  ⟨by decide, by rfl⟩

/-- C11 (amended): for a request with a non-empty text and a format that is
`sql` or `mongodb` in any letter case, with an initialised client whose model
call returns a completion that is empty or white space only, the response is
that of a success: status 200 with the body `query: ""` and no `note`. -/
theorem c11_blank_completion_is_success (g : Gateway) (t f d c : String)
    (ht : t ≠ "") (hf : (JsVal.str f).toLowerCase = .ok d) (hd : d = "sql" ∨ d = "mongodb")
    (hg : g (fullPrompt d t) = .ok c) (hc : c.data.all isJsSpace = true) :
    (convert (some g) ⟨.str t, .str f⟩).response = ⟨200, [("query", "")]⟩ ∧
    (convert (some g) ⟨.str t, .str f⟩).response.body.lookup "note" = none := by
  rw [convert_valid g t f d ht hf hd, hg]
  refine ⟨?_, rfl⟩
  show (⟨200, [("query", jsTrim c)]⟩ : Response) = ⟨200, [("query", "")]⟩
  rw [jsTrim_eq_empty_of_all_space c hc]

theorem c11_blank_completion_is_success_witness :
    (convert (some (fun _ => .ok "")) ⟨.str "x", .str "MongoDB"⟩).response =
      ⟨200, [("query", "")]⟩ ∧
    (convert (some (fun _ => .ok "")) ⟨.str "x", .str "MongoDB"⟩).response.body.lookup "note" =
      none :=
  c11_blank_completion_is_success (fun _ => .ok "") "x" "MongoDB" "mongodb" "" (by decide)
    (by rfl) (Or.inr rfl) rfl (by decide)

/-- C15: for two requests with non-empty texts and formats normalising to the
same dialect, when the model call fails on both, the two responses are equal,
whatever the texts, the clients and the errors are. -/
theorem c15_fallback_independent_of_text (g1 g2 : Gateway) (t1 t2 f1 f2 d m1 m2 : String)
    (ht1 : t1 ≠ "") (ht2 : t2 ≠ "")
    (hf1 : (JsVal.str f1).toLowerCase = .ok d) (hf2 : (JsVal.str f2).toLowerCase = .ok d)
    (hd : d = "sql" ∨ d = "mongodb")
    (hg1 : g1 (fullPrompt d t1) = .error m1) (hg2 : g2 (fullPrompt d t2) = .error m2) :
    (convert (some g1) ⟨.str t1, .str f1⟩).response =
      (convert (some g2) ⟨.str t2, .str f2⟩).response := by
  rw [convert_valid g1 t1 f1 d ht1 hf1 hd, convert_valid g2 t2 f2 d ht2 hf2 hd, hg1, hg2]

theorem c15_fallback_independent_of_text_witness :
    (convert (some (fun _ => .error "fetch failed"))
        ⟨.str "Count the number of orders grouped by status", .str "sql"⟩).response =
      (convert (some (fun _ => .error "404 Not Found"))
        ⟨.str "Get the average age of users from New York", .str "SQL"⟩).response :=
  c15_fallback_independent_of_text (fun _ => .error "fetch failed")
    (fun _ => .error "404 Not Found") "Count the number of orders grouped by status"
    "Get the average age of users from New York" "sql" "SQL" "sql" "fetch failed"
    "404 Not Found" (by decide) (by decide) (by rfl) (by rfl) (Or.inl rfl) rfl rfl

/-- C17 (the code at the failing input): the text check comes first, so an
empty text gets `Text is required` whatever the format and the client; a
missing format and the format `graphql` get the 400 of the format check also
without a client; but the number 5 as format, without a client, gets the 500 of
the outer `catch`, not a 400. -/
theorem c17_checks_in_order_but_number_format_gives_500 (genAI : Option Gateway)
    (format : JsVal) :
    convert genAI ⟨.str "", format⟩ = ⟨⟨400, [("error", "Text is required")]⟩, []⟩ ∧
    convert none ⟨.str "x", .undefined⟩ =
      ⟨⟨400, [("error", "Valid format (sql or mongodb) is required")]⟩, []⟩ ∧
    convert none ⟨.str "x", .str "graphql"⟩ =
      ⟨⟨400, [("error", "Valid format (sql or mongodb) is required")]⟩, []⟩ ∧
    convert none ⟨.str "x", .num 5⟩ =
      ⟨⟨500, [("error", "Failed to convert text to query")]⟩, []⟩ :=
  ⟨by simp [convert, convertTry, JsVal.truthy], by rfl, by rfl, by rfl⟩

/-! ## Theorems: the submit handler and the persist effect -/

/-- A submit with a non-blank input, on a history that is an array: the request
carries the input as typed and the selected format; the history gains the
entry of a resolved request and is untouched by a rejected one. -/
theorem handleSubmit_nonblank (server : ConvertCall → AxiosOutcome) (s : ViewState)
    (L : List JsVal) (hin : jsTrim s.inputText ≠ "") (hL : s.queryHistory = .arr L) :
    handleSubmit server s =
      match server ⟨s.inputText, s.format⟩ with
      | .success query _ =>
        .ok ({ s with error := none, copied := false, outputQuery := query, loading := false,
                      queryHistory :=
                        .arr (HistoryEntry.toJs ⟨s.inputText, s.format, query⟩ :: L.take 9) },
          [⟨s.inputText, s.format⟩])
      | outcome =>
        .ok ({ s with outputQuery := "", copied := false, error := errorMessage outcome,
                      loading := false }, [⟨s.inputText, s.format⟩]) := by
  unfold handleSubmit
  simp only [beq_iff_eq, hin, ↓reduceIte]
  cases hs : server ⟨s.inputText, s.format⟩ <;>
    simp [hL, historyUpdater, bind, Except.bind, pure, Except.pure]

/-- C12: on a history that is the array `L`, the append of `e` followed by the
persist effect makes exactly one write, to the key `queryHistory`, of the
serialisation of the whole new history, `e` followed by the first nine elements
of `L`. -/
theorem c12_append_then_persist_writes_new_log (stringify : JsVal → String)
    (gtZero : JsVal → Bool) (L : List JsVal) (e : HistoryEntry) :
    (historyUpdater e (.arr L) >>= persistEffect stringify gtZero) =
      .ok [("queryHistory", stringify (.arr (e.toJs :: L.take 9)))] := by
  simp [historyUpdater, persistEffect, bind, Except.bind, pure, Except.pure]

/-- C13 (as stated, refuted): a submit of the input `x` that the server answers
with status 500 sends one request and leaves the empty history empty. -/
theorem c13_rejected_submit_adds_no_entry :
    (handleSubmit (fun _ => .failure 500 (some "Google Generative AI client not initialized"))
        { initialState with inputText := "x" }).map (fun r => (r.1.queryHistory, r.2)) =
      .ok (.arr [], [⟨"x", "sql"⟩]) := by
  rfl

/-- C13 (amended): a submit with a non-blank input sends one request; when the
request resolves (a model result or a fallback) the history gains exactly one
entry at its head, and when it is rejected (a status outside 200-299, or no
response) the history is unchanged. -/
theorem c13_history_gains_entry_only_on_success (server : ConvertCall → AxiosOutcome)
    (s : ViewState) (L : List JsVal) (hin : jsTrim s.inputText ≠ "")
    (hL : s.queryHistory = .arr L) :
    (handleSubmit server s).map (fun r => (r.1.queryHistory, r.2)) =
      .ok (match server ⟨s.inputText, s.format⟩ with
           | .success query _ =>
             .arr (HistoryEntry.toJs ⟨s.inputText, s.format, query⟩ :: L.take 9)
           | _ => .arr L,
           [⟨s.inputText, s.format⟩]) := by
  rw [handleSubmit_nonblank server s L hin hL]
  cases server ⟨s.inputText, s.format⟩ <;> simp [Except.map, hL]

theorem c13_history_gains_entry_only_on_success_witness :
    (handleSubmit (fun _ => .noResponse)
        { initialState with inputText := "x", queryHistory := .arr [.num 1] }).map
        (fun r => (r.1.queryHistory, r.2)) =
      .ok (.arr [.num 1], [⟨"x", "sql"⟩]) :=
  c13_history_gains_entry_only_on_success (fun _ => .noResponse)
    { initialState with inputText := "x", queryHistory := .arr [.num 1] } [.num 1]
    (by decide) rfl

/-- C14: when a submit with a non-blank input resolves with the body query `q`,
with or without a `note`, the entry at the head of the history is the object of
the input as typed, the selected format and `q`, followed by the first nine
earlier elements, and `outputQuery` is `q`; the `note` is stored nowhere. -/
theorem c14_resolved_submit_records_entry (server : ConvertCall → AxiosOutcome)
    (s : ViewState) (L : List JsVal) (q : String) (note : Option String)
    (hin : jsTrim s.inputText ≠ "") (hL : s.queryHistory = .arr L)
    (hs : server ⟨s.inputText, s.format⟩ = .success q note) :
    (handleSubmit server s).map (fun r => (r.1.queryHistory, r.1.outputQuery)) =
      .ok (.arr (.obj [("text", .str s.inputText), ("format", .str s.format),
                       ("result", .str q)] :: L.take 9), q) := by
  rw [handleSubmit_nonblank server s L hin hL, hs]
  rfl

theorem c14_resolved_submit_records_entry_witness :
    (handleSubmit (fun _ => .success sampleSql (some fallbackNote))
        { initialState with inputText := " list users ", queryHistory := .arr [.num 1] }).map
        (fun r => (r.1.queryHistory, r.1.outputQuery)) =
      .ok (.arr (.obj [("text", .str " list users "), ("format", .str "sql"),
                       ("result", .str sampleSql)] :: [JsVal.num 1].take 9), sampleSql) :=
  c14_resolved_submit_records_entry (fun _ => .success sampleSql (some fallbackNote))
    { initialState with inputText := " list users ", queryHistory := .arr [.num 1] } [.num 1]
    sampleSql (some fallbackNote) (by decide) rfl rfl

/-- C16: when a submit with a non-blank input is rejected with a response whose
status is not 401 and whose body has the non-empty `error` string `e`, the
handler ends with `error` equal to `e`, the history as it was and `loading`
false. -/
theorem c16_server_error_shown_verbatim (server : ConvertCall → AxiosOutcome) (s : ViewState)
    (status : Nat) (e : String) (hin : jsTrim s.inputText ≠ "")
    (hs : server ⟨s.inputText, s.format⟩ = .failure status (some e))
    (hstatus : status ≠ 401) (he : e ≠ "") :
    (handleSubmit server s).map (fun r => (r.1.error, r.1.queryHistory, r.1.loading)) =
      .ok (some e, s.queryHistory, false) := by
  unfold handleSubmit
  simp only [beq_iff_eq, hin, ↓reduceIte, hs]
  simp [Except.map, pure, Except.pure, errorMessage, hstatus, he]

theorem c16_server_error_shown_verbatim_witness :
    (handleSubmit (fun _ => .failure 400 (some "Valid format (sql or mongodb) is required"))
        { initialState with inputText := "x", format := "graphql" }).map
        (fun r => (r.1.error, r.1.queryHistory, r.1.loading)) =
      .ok (some "Valid format (sql or mongodb) is required", .arr [], false) :=
  c16_server_error_shown_verbatim
    (fun _ => .failure 400 (some "Valid format (sql or mongodb) is required"))
    { initialState with inputText := "x", format := "graphql" } 400
    "Valid format (sql or mongodb) is required" (by decide) rfl (by decide) (by decide)

end Text2Table
